import Mathlib

/-!
Verification development for the pydbrelay result-set protocol layer
(`pydbrelay.py`).  The Python module is shallowly embedded: the parsed JSON
response is the inductive type `Json`, Python `None` is `Json.null`, raised
Python exceptions are the `PyErr` error component of `Except`, and the
stateful `Cursor` object is explicit state passing.  The external transport
(`urllib`, `urllib2`, `json.load`) is out of scope: `Cursor.execute` receives
the parsed response document as an argument, exactly the value `json.load`
would have produced.
-/

set_option linter.unusedVariables false
set_option linter.dupNamespace false

/-- A parsed JSON tree, as produced by `json.load`.  Python `None` (JSON
`null`) is `Json.null`; numeric leaves are modelled as integers, which covers
every value the claims mention. -/
inductive Json where
  | null
  | bool (b : Bool)
  | num (n : Int)
  | str (s : String)
  | arr (elems : List Json)
  | obj (entries : List (String × Json))

/-- The Python exceptions the embedded code can raise.  `error` is the
module class `pydbrelay.Error`; `databaseError` carries the object passed to
`DatabaseError(...)` (in the source, the value of the `error` property). -/
inductive PyErr where
  | keyError (k : String)
  | indexError (m : String)
  | typeError (m : String)
  | valueError (m : String)
  | error (m : String)
  | databaseError (v : Json)
  | internalError (m : String)

/-- Python truthiness of a JSON value: `None`, `False`, `0`, `""`, `[]` and
`\x7b\x7d` are falsy, everything else is truthy. -/
def Json.truthy : Json → Bool
  | .null => false
  | .bool b => b
  | .num n => n != 0
  | .str s => s != ""
  | .arr xs => !xs.isEmpty
  | .obj kvs => !kvs.isEmpty

/-- First binding of a key in an object entry list (response documents never
repeat keys). -/
def Json.lookupKey : List (String × Json) → String → Option Json
  | [], _ => none
  | (k, v) :: rest, key => if k = key then some v else Json.lookupKey rest key

/-- Python subscript `container[key]` for a string key: `KeyError` on a dict
missing the key, `TypeError` on any non-dict container. -/
def Json.subscript (j : Json) (key : String) : Except PyErr Json :=
  match j with
  | .obj kvs =>
    match Json.lookupKey kvs key with
    | some v => .ok v
    | none => .error (.keyError key)
  | .arr _ => .error (.typeError "list indices must be integers")
  | .str _ => .error (.typeError "string indices must be integers")
  | _ => .error (.typeError "object is not subscriptable")

/-- Python subscript `container[i]` for an integer index, with the usual
negative-index-from-the-end semantics on sequences. -/
def Json.index (j : Json) (i : Int) : Except PyErr Json :=
  match j with
  | .arr xs =>
    let n : Int := xs.length
    let i' := if i < 0 then i + n else i
    if 0 ≤ i' ∧ i' < n then .ok (xs.getD i'.toNat Json.null)
    else .error (.indexError "list index out of range")
  | .str s =>
    let n : Int := s.data.length
    let i' := if i < 0 then i + n else i
    if 0 ≤ i' ∧ i' < n then .ok (.str (String.mk [s.data.getD i'.toNat ' ']))
    else .error (.indexError "string index out of range")
  | .obj _ => .error (.keyError (toString i))
  | _ => .error (.typeError "object is not subscriptable")

/-- Python `len(...)`: defined for sequences and mappings, `TypeError`
otherwise. -/
def pyLen (j : Json) : Except PyErr Nat :=
  match j with
  | .arr xs => .ok xs.length
  | .obj kvs => .ok kvs.length
  | .str s => .ok s.data.length
  | _ => .error (.typeError "object has no len")

/-- Python iteration `for x in j`: list elements, dict keys, or the characters
of a string; iterating `None` or a scalar raises `TypeError`. -/
def pyIterate (j : Json) : Except PyErr (List Json) :=
  match j with
  | .arr xs => .ok xs
  | .obj kvs => .ok (kvs.map (fun kv => Json.str kv.1))
  | .str s => .ok (s.data.map (fun ch => Json.str (String.mk [ch])))
  | .null => .error (.typeError "NoneType is not iterable")
  | _ => .error (.typeError "object is not iterable")

/-- Whether `needle` is an initial segment of `hay` (used for the substring
case of the Python `in` operator). -/
def listStarts : List Char → List Char → Bool
  | [], _ => true
  | _ :: _, [] => false
  | a :: as, b :: bs => a == b && listStarts as bs

/-- Whether `needle` occurs contiguously inside `hay`. -/
def substrCheck (needle : List Char) : List Char → Bool
  | [] => listStarts needle []
  | b :: t => listStarts needle (b :: t) || substrCheck needle t

/-- The Python membership test `key in container` for a string key:
key lookup on a dict, element membership on a list, substring test on a
string, `TypeError` on non-containers. -/
def pyContains (container : Json) (key : String) : Except PyErr Bool :=
  match container with
  | .obj kvs => .ok (kvs.any (fun kv => kv.1 == key))
  | .arr xs => .ok (xs.any (fun x => match x with | .str s => s == key | _ => false))
  | .str s => .ok (substrCheck key.data s.data)
  | _ => .error (.typeError "argument is not iterable")

/-- Python subscript with a JSON key of either kind, as used by
`row[col]` inside `Cursor.fetchone`. -/
def Json.getItem (container key : Json) : Except PyErr Json :=
  match key with
  | .str k => container.subscript k
  | .num i => container.index i
  | _ => .error (.typeError "invalid subscript key")

/-- Python `str(...)` of a JSON leaf (container renderings are never relied
upon by the embedded code paths the claims exercise). -/
def pyStr (j : Json) : String :=
  match j with
  | .null => "None"
  | .bool b => if b then "True" else "False"
  | .num n => toString n
  | .str s => s
  | .arr _ => "[...]"
  | .obj _ => "\x7b...\x7d"

/-- Whether the JSON value equals the given string tag (Python `==` between a
string and an arbitrary value is `False` unless both are strings). -/
def tagEq (ty : Json) (s : String) : Bool :=
  match ty with
  | .str t => t == s
  | _ => false

/-- Membership of a JSON value in a set of string tags (`type in values`). -/
def Json.tagMem (ty : Json) (tags : List String) : Bool :=
  match ty with
  | .str t => tags.contains t
  | _ => false

/-- A coerced domain value produced by the type taxonomy: Python `None`,
`str`, `decimal.Decimal` (kept as its exact constructor string),
`datetime.date` / `datetime.time` / `datetime.datetime`, or an untouched
pass-through wire value. -/
inductive Value where
  | none
  | str (s : String)
  | decimal (s : String)
  | date (year month day : Nat)
  | time (hour minute second microsecond : Nat)
  | datetime (year month day hour minute second microsecond : Nat)
  | raw (j : Json)

/-- `decimal.Decimal(str(item))`: an exact arbitrary-precision decimal built
from the textual representation (no binary floating point involved). -/
def decimal.Decimal (s : String) : Value := .decimal s

def isLeapYear (y : Nat) : Bool := (y % 4 == 0 && y % 100 != 0) || y % 400 == 0

def daysInMonth (y m : Nat) : Nat :=
  if m = 2 then (if isLeapYear y then 29 else 28)
  else if m = 4 ∨ m = 6 ∨ m = 9 ∨ m = 11 then 30
  else 31

/-- The `datetime.date` constructor, including its range validation. -/
def datetime.date (year month day : Nat) : Except PyErr Value :=
  if 1 ≤ year ∧ year ≤ 9999 ∧ 1 ≤ month ∧ month ≤ 12 ∧ 1 ≤ day ∧ day ≤ daysInMonth year month
  then .ok (.date year month day)
  else .error (.valueError "date value out of range")

/-- The `datetime.time` constructor, including its range validation. -/
def datetime.time (hour minute second microsecond : Nat) : Except PyErr Value :=
  if hour ≤ 23 ∧ minute ≤ 59 ∧ second ≤ 59 ∧ microsecond ≤ 999999
  then .ok (.time hour minute second microsecond)
  else .error (.valueError "time value out of range")

/-- The `datetime.datetime` constructor, including its range validation. -/
def datetime.datetime (year month day hour minute second microsecond : Nat) :
    Except PyErr Value :=
  if 1 ≤ year ∧ year ≤ 9999 ∧ 1 ≤ month ∧ month ≤ 12 ∧ 1 ≤ day ∧ day ≤ daysInMonth year month
     ∧ hour ≤ 23 ∧ minute ≤ 59 ∧ second ≤ 59 ∧ microsecond ≤ 999999
  then .ok (.datetime year month day hour minute second microsecond)
  else .error (.valueError "datetime value out of range")

/-- Decimal value of a digit string, most significant digit first. -/
def natOfDigits (cs : List Char) : Nat :=
  cs.foldl (fun a c => a * 10 + (c.toNat - 48)) 0

/-- Python `int(...)` on the split components: a non-empty all-digit string
parses to its value, anything else raises `ValueError`. -/
def parsePyNat (cs : List Char) : Except PyErr Nat :=
  if cs ≠ [] ∧ cs.all Char.isDigit = true then .ok (natOfDigits cs)
  else .error (.valueError "invalid literal for int")

def digitChar : Nat → Char
  | 0 => '0' | 1 => '1' | 2 => '2' | 3 => '3' | 4 => '4'
  | 5 => '5' | 6 => '6' | 7 => '7' | 8 => '8' | _ => '9'

/-- Digit rendering worker: `fuel` only bounds the recursion depth (any
`fuel ≥ n` yields the decimal digits of `n`). -/
def pyStrNatAux (fuel n : Nat) : List Char :=
  match fuel with
  | 0 => [digitChar n]
  | f + 1 =>
    if n < 10 then [digitChar n]
    else pyStrNatAux f (n / 10) ++ [digitChar (n % 10)]

/-- Python `str(...)` of a non-negative integer (decimal digits, no leading
zeros). -/
def pyStrNat (n : Nat) : List Char := pyStrNatAux n n

/-- Python `s.ljust(6, '0')`: right-pad with zeros to length 6. -/
def ljust6 (cs : List Char) : List Char := cs ++ List.replicate (6 - cs.length) '0'

/-- `re.split('[...]', s)`: split at every occurrence of any delimiter
character; adjacent delimiters produce empty components. -/
def resplit (ds : List Char) : List Char → List (List Char)
  | [] => [[]]
  | c :: rest =>
    if c ∈ ds then [] :: resplit ds rest
    else
      match resplit ds rest with
      | [] => [[c]]
      | p :: ps => (c :: p) :: ps

/-- `map(int, raw)`: parse every component left to right, raising at the
first failure. -/
def mapInt : List (List Char) → Except PyErr (List Nat)
  | [] => .ok []
  | p :: ps =>
    match parsePyNat p with
    | .error e => .error e
    | .ok n =>
      match mapInt ps with
      | .error e => .error e
      | .ok ns => .ok (n :: ns)

/-- A DB-API type category singleton: a set of wire type-name tags and a
coercion function. -/
structure DBAPITypeObject where
  values : List String
  to_object : Json → Json → Except PyErr Value

/-- The base class coercion: `return item` (identity pass-through). -/
def DBAPITypeObject.default_to_object (item ty : Json) : Except PyErr Value :=
  .ok (.raw item)

/-- `DBAPITypeObject.__cmp__` driven equality `sql_type == category`: equal
when the tag is in the value set; otherwise `__cmp__` evaluates
`other < min(self.values)`, which raises `ValueError` when the value set is
empty and yields a nonzero comparison (not equal) when it is not. -/
def DBAPITypeObject.cmpEq (t : DBAPITypeObject) (other : Json) : Except PyErr Bool :=
  if (match other with | .str s => t.values.contains s | _ => false) then .ok true
  else
    match t.values with
    | [] => .error (.valueError "min() arg is an empty sequence")
    | _ :: _ => .ok false

def stringTags : List String := ["char", "guid", "text", "varchar", "wchar", "wvarchar"]

def binaryTags : List String :=
  ["binary", "blob", "enum", "geometry", "image", "money", "smallmoney", "varbinary"]

def numberTags : List String :=
  ["bigint", "bit", "double", "int", "int24", "integer", "float", "longint",
   "longlong", "real", "shortint", "tinyint", "year", "decimal", "numeric"]

def datetimeTags : List String := ["date", "time", "datetime", "smalldatetime", "timestamp"]

/-- `DBAPIString.to_object`: stringify. -/
def DBAPIString.to_object (item ty : Json) : Except PyErr Value := .ok (.str (pyStr item))

/-- `DBAPIBinary.to_object`: stringify (the source does not decode binary). -/
def DBAPIBinary.to_object (item ty : Json) : Except PyErr Value := .ok (.str (pyStr item))

/-- `DBAPINumber.to_object`: exact decimal for `decimal`/`numeric` tags,
identity pass-through for every other numeric tag. -/
def DBAPINumber.to_object (item ty : Json) : Except PyErr Value :=
  if tagEq ty "decimal" || tagEq ty "numeric" then .ok (decimal.Decimal (pyStr item))
  else .ok (.raw item)

/-- `DBAPIDateTime.to_object`: fixed-delimiter parsing of date and time text.
`re.split` requires a string input, so a non-string raw value raises
`TypeError` in the branches that parse. -/
def DBAPIDateTime.to_object (item ty : Json) : Except PyErr Value :=
  if tagEq ty "date" then
    match item with
    | .str s =>
      match mapInt (resplit ['-'] s.data) with
      | .error e => .error e
      | .ok [yr, mo, day] => datetime.date yr mo day
      | .ok _ => .error (.valueError "unpack mismatch")
    | _ => .error (.typeError "expected string or buffer")
  else if tagEq ty "time" then
    match item with
    | .str s =>
      let raw := resplit [':', '.'] s.data
      let raw := raw ++ List.replicate (4 - raw.length) ['0']
      match mapInt raw with
      | .error e => .error e
      | .ok [hour, minute, second, micro] =>
        match parsePyNat (ljust6 (pyStrNat micro)) with
        | .error e => .error e
        | .ok micro6 => datetime.time hour minute second micro6
      | .ok _ => .error (.valueError "unpack mismatch")
    | _ => .error (.typeError "expected string or buffer")
  else if Json.tagMem ty datetimeTags then
    match item with
    | .str s =>
      let raw := resplit ['-', ' ', ':', '.'] s.data
      let raw := raw ++ List.replicate (7 - raw.length) ['0']
      match mapInt raw with
      | .error e => .error e
      | .ok [yr, mo, day, hour, minute, second, micro] =>
        match parsePyNat (ljust6 (pyStrNat micro)) with
        | .error e => .error e
        | .ok micro6 => datetime.datetime yr mo day hour minute second micro6
      | .ok _ => .error (.valueError "unpack mismatch")
    | _ => .error (.typeError "expected string or buffer")
  else .ok (.raw item)

def STRING : DBAPITypeObject := ⟨stringTags, DBAPIString.to_object⟩
def BINARY : DBAPITypeObject := ⟨binaryTags, DBAPIBinary.to_object⟩
def NUMBER : DBAPITypeObject := ⟨numberTags, DBAPINumber.to_object⟩
def DATETIME : DBAPITypeObject := ⟨datetimeTags, DBAPIDateTime.to_object⟩
def ROWID : DBAPITypeObject := ⟨[], DBAPITypeObject.default_to_object⟩

def Json.isNull : Json → Bool
  | .null => true
  | _ => false

/-- The dispatch loop of `Cursor._type_map` over
`[NUMBER, STRING, DATETIME, BINARY, ROWID]`; falls through to identity when
no category tests equal. -/
def typeLoop : List DBAPITypeObject → Json → Json → Except PyErr Value
  | [], element, _ => .ok (.raw element)
  | t :: rest, element, sql_type =>
    match t.cmpEq sql_type with
    | .error e => .error e
    | .ok true => t.to_object element sql_type
    | .ok false => typeLoop rest element sql_type

/-- `Cursor._type_map`: `None` for a null raw value or the `null` tag, then
category dispatch in source order. -/
def Cursor.type_map (element sql_type : Json) : Except PyErr Value :=
  if element.isNull || tagEq sql_type "null" then .ok .none
  else typeLoop [NUMBER, STRING, DATETIME, BINARY, ROWID] element sql_type

/-- `DBRelayData.__init__`: reject a falsy parsed document with
`ValueError("No data!")`, otherwise wrap it. -/
def DBRelayData.init (data : Json) : Except PyErr Json :=
  if data.truthy then .ok data else .error (.valueError "No data!")

/-- `DBRelayData.error` property:
`log = self._json['log']` (a `KeyError` if the document has no `log` key),
then `log['error'] if log and 'error' in log else None`. -/
def DBRelayData.error (j : Json) : Except PyErr Json :=
  match j.subscript "log" with
  | .error e => .error e
  | .ok log =>
    if log.truthy then
      match pyContains log "error" with
      | .error e => .error e
      | .ok true => log.subscript "error"
      | .ok false => .ok .null
    else .ok .null

/-- `DBRelayData.data` property:
`self._json['data'] if 'data' in self._json else None`. -/
def DBRelayData.data (j : Json) : Except PyErr Json :=
  match pyContains j "data" with
  | .error e => .error e
  | .ok true => j.subscript "data"
  | .ok false => .ok .null

/-- `DBRelayData.get_fields(idx)`: `self.data[idx]['fields']` when `self.data`
is truthy and `0 <= idx < len(self.data)`, `None` otherwise (the `len` call is
reached only when `self.data` is truthy and `0 <= idx`). -/
def DBRelayData.get_fields (j : Json) (idx : Int) : Except PyErr Json :=
  match DBRelayData.data j with
  | .error e => .error e
  | .ok d =>
    if d.truthy then
      if 0 ≤ idx then
        match pyLen d with
        | .error e => .error e
        | .ok n =>
          if idx < (n : Int) then
            match d.index idx with
            | .error e => .error e
            | .ok item => item.subscript "fields"
          else .ok .null
      else .ok .null
    else .ok .null

/-- `DBRelayData.get_rows(idx)`: `self.data[idx]['rows']` under the same
bounds test as `get_fields`, `None` otherwise. -/
def DBRelayData.get_rows (j : Json) (idx : Int) : Except PyErr Json :=
  match DBRelayData.data j with
  | .error e => .error e
  | .ok d =>
    if d.truthy then
      if 0 ≤ idx then
        match pyLen d with
        | .error e => .error e
        | .ok n =>
          if idx < (n : Int) then
            match d.index idx with
            | .error e => .error e
            | .ok item => item.subscript "rows"
          else .ok .null
      else .ok .null
    else .ok .null

/-- `[field[key] for field in fields]`. -/
def mapKey (key : String) : List Json → Except PyErr (List Json)
  | [] => .ok []
  | f :: fs =>
    match f.subscript key with
    | .error e => .error e
    | .ok v =>
      match mapKey key fs with
      | .error e => .error e
      | .ok vs => .ok (v :: vs)

/-- The loop body of `get_precisions`/`get_scales`: `field[key]` when the
field carries the key, `None` otherwise. -/
def mapOptKey (key : String) : List Json → Except PyErr (List Json)
  | [] => .ok []
  | f :: fs =>
    match pyContains f key with
    | .error e => .error e
    | .ok b =>
      match (if b then f.subscript key else .ok .null) with
      | .error e => .error e
      | .ok v =>
        match mapOptKey key fs with
        | .error e => .error e
        | .ok vs => .ok (v :: vs)

/-- `DBRelayData.get_sql_types(idx)`:
`[field['sql_type'] for field in fields] if fields else []`. -/
def DBRelayData.get_sql_types (j : Json) (idx : Int) : Except PyErr (List Json) :=
  match DBRelayData.get_fields j idx with
  | .error e => .error e
  | .ok fields =>
    if fields.truthy then
      match pyIterate fields with
      | .error e => .error e
      | .ok xs => mapKey "sql_type" xs
    else .ok []

/-- `DBRelayData.get_names(idx)`:
`[field['name'] for field in fields] if fields else []`. -/
def DBRelayData.get_names (j : Json) (idx : Int) : Except PyErr (List Json) :=
  match DBRelayData.get_fields j idx with
  | .error e => .error e
  | .ok fields =>
    if fields.truthy then
      match pyIterate fields with
      | .error e => .error e
      | .ok xs => mapKey "name" xs
    else .ok []

/-- `DBRelayData.get_precisions(idx)`: iterates `fields` with no truthiness
guard, so an absent (`None`) fields value raises `TypeError`. -/
def DBRelayData.get_precisions (j : Json) (idx : Int) : Except PyErr (List Json) :=
  match DBRelayData.get_fields j idx with
  | .error e => .error e
  | .ok fields =>
    match pyIterate fields with
    | .error e => .error e
    | .ok xs => mapOptKey "precision" xs

/-- `DBRelayData.get_scales(idx)`: same unguarded iteration as
`get_precisions`. -/
def DBRelayData.get_scales (j : Json) (idx : Int) : Except PyErr (List Json) :=
  match DBRelayData.get_fields j idx with
  | .error e => .error e
  | .ok fields =>
    match pyIterate fields with
    | .error e => .error e
    | .ok xs => mapOptKey "scale" xs

/-- `DBRelayData.get_blanks(idx)`:
`[None for field in fields] if fields else []`. -/
def DBRelayData.get_blanks (j : Json) (idx : Int) : Except PyErr (List Json) :=
  match DBRelayData.get_fields j idx with
  | .error e => .error e
  | .ok fields =>
    if fields.truthy then
      match pyIterate fields with
      | .error e => .error e
      | .ok xs => .ok (xs.map (fun _ => Json.null))
    else .ok []

/-- One entry of `Cursor.description`:
`(name, type_code, display_size, internal_size, precision, scale)`. -/
abbrev DescTuple := Json × Json × Json × Json × Json × Json

/-- Python `zip` over the six description columns (truncates to the shortest
list). -/
def zip6 : List Json → List Json → List Json → List Json → List Json → List Json →
    List DescTuple
  | a :: as, b :: bs, c :: cs, d :: ds, e :: es, f :: fs =>
    (a, b, c, d, e, f) :: zip6 as bs cs ds es fs
  | _, _, _, _, _, _ => []

/-- The mutable state of a `Cursor` object.  `_data` is `None` before the
first execute and otherwise holds the (already validated) parsed response
document wrapped by `DBRelayData`. -/
structure Cursor where
  _open : Bool
  description : Option (List DescTuple)
  rowcount : Int
  arraysize : Nat
  _data : Option Json
  _set_idx : Int
  _row_idx : Int

/-- `Cursor.__init__`. -/
def Cursor.init : Cursor :=
  { _open := true, description := none, rowcount := -1, arraysize := 1,
    _data := none, _set_idx := -1, _row_idx := -1 }

/-- `Cursor._assertOpen`. -/
def Cursor._assertOpen (c : Cursor) : Except PyErr Unit :=
  if c._open then .ok () else .error (.internalError "pydbrelay Cursor is closed.")

/-- `Cursor.close`: idempotent, never raises (the source also clears the
otherwise-unused `_types` attribute). -/
def Cursor.close (c : Cursor) : Cursor :=
  { c with _open := false, _data := none, description := none }

/-- `Cursor._set_description(idx)`: builds the zip of names, blanks,
precisions and scales for result set `idx`. -/
def Cursor._set_description (doc : Json) (idx : Int) : Except PyErr (List DescTuple) :=
  match DBRelayData.get_names doc idx with
  | .error e => .error e
  | .ok names =>
    match DBRelayData.get_blanks doc idx with
    | .error e => .error e
    | .ok type_codes =>
      match DBRelayData.get_blanks doc idx with
      | .error e => .error e
      | .ok display_sizes =>
        match DBRelayData.get_blanks doc idx with
        | .error e => .error e
        | .ok internal_size =>
          match DBRelayData.get_precisions doc idx with
          | .error e => .error e
          | .ok precisions =>
            match DBRelayData.get_scales doc idx with
            | .error e => .error e
            | .ok scales =>
              .ok (zip6 names type_codes display_sizes internal_size precisions scales)

/-- `Cursor.nextset`: the mutations performed before a raise inside
`_set_description` survive it, so the updated cursor is returned alongside
the outcome. -/
def Cursor.nextset (c : Cursor) : Cursor × Except PyErr (Option Bool) :=
  if ¬ c._open then (c, .error (.internalError "pydbrelay Cursor is closed."))
  else
    match c._data with
    | none => (c, .ok none)
    | some doc =>
      match DBRelayData.data doc with
      | .error e => (c, .error e)
      | .ok data =>
        if ¬ data.truthy then (c, .ok none)
        else
          match pyLen data with
          | .error e => (c, .error e)
          | .ok n =>
            if c._set_idx ≥ (n : Int) - 1 then (c, .ok none)
            else
              let c1 := { c with _set_idx := c._set_idx + 1, _row_idx := 0 }
              match Cursor._set_description doc c1._set_idx with
              | .error e => (c1, .error e)
              | .ok desc => ({ c1 with description := some desc }, .ok (some true))

/-- `[row[col] for col in cols]`. -/
def mapSubscript (row : Json) : List Json → Except PyErr (List Json)
  | [] => .ok []
  | col :: cols =>
    match Json.getItem row col with
    | .error e => .error e
    | .ok v =>
      match mapSubscript row cols with
      | .error e => .error e
      | .ok vs => .ok (v :: vs)

/-- The tail of Python 2 `map(f, l1, l2)` once `l1` is exhausted: the
remaining `l2` entries are paired with `None`. -/
def map2PadLeft : List Json → Except PyErr (List Value)
  | [] => .ok []
  | y :: ys =>
    match Cursor.type_map .null y with
    | .error e => .error e
    | .ok v =>
      match map2PadLeft ys with
      | .error e => .error e
      | .ok vs => .ok (v :: vs)

/-- Python 2 `map(f, l1, l2)`: maps in lockstep, padding the shorter list
with `None`. -/
def map2 : List Json → List Json → Except PyErr (List Value)
  | [], ys => map2PadLeft ys
  | x :: xs, [] =>
    match Cursor.type_map x .null with
    | .error e => .error e
    | .ok v =>
      match map2 xs [] with
      | .error e => .error e
      | .ok vs => .ok (v :: vs)
  | x :: xs, y :: ys =>
    match Cursor.type_map x y with
    | .error e => .error e
    | .ok v =>
      match map2 xs ys with
      | .error e => .error e
      | .ok vs => .ok (v :: vs)

/-- `Cursor.fetchone`: returns the next coerced row (`some vals`) with the
row index advanced, `none` (Python `None`) past the end, or raises. -/
def Cursor.fetchone (c : Cursor) : Except PyErr (Option (List Value) × Cursor) :=
  match c._assertOpen with
  | .error e => .error e
  | .ok _ =>
    match c._data with
    | none => .error (.error "No result set.")
    | some doc =>
      match DBRelayData.data doc with
      | .error e => .error e
      | .ok data =>
        if ¬ data.truthy then .error (.error "Empty result set.")
        else
          match pyLen data with
          | .error e => .error e
          | .ok n =>
            if n = 0 then .error (.error "Empty result set.")
            else if c._set_idx ≥ (n : Int) then .ok (none, c)
            else
              match DBRelayData.get_rows doc c._set_idx with
              | .error e => .error e
              | .ok rows =>
                match pyLen rows with
                | .error e => .error e
                | .ok rn =>
                  if c._row_idx ≥ (rn : Int) then .ok (none, c)
                  else
                    match rows.index c._row_idx with
                    | .error e => .error e
                    | .ok row =>
                      match DBRelayData.get_names doc c._set_idx with
                      | .error e => .error e
                      | .ok cols =>
                        match mapSubscript row cols with
                        | .error e => .error e
                        | .ok elements =>
                          match DBRelayData.get_sql_types doc c._set_idx with
                          | .error e => .error e
                          | .ok sql_types =>
                            match map2 elements sql_types with
                            | .error e => .error e
                            | .ok vals =>
                              .ok (some vals, { c with _row_idx := c._row_idx + 1 })

/-- Truthiness of a `fetchone` result: `None` and the empty row are falsy. -/
def rowTruthy : Option (List Value) → Bool
  | some (_ :: _) => true
  | _ => false

/-- The loop of `Cursor.fetchmany`: `for i in xrange(size)`, each iteration
calling `fetchone` once as the loop test and, when the test row is truthy,
calling `fetchone` a second time and appending that second result. -/
def Cursor.fetchmanyAux : Nat → Cursor → List (Option (List Value)) →
    Except PyErr (List (Option (List Value)) × Cursor)
  | 0, c, acc => .ok (acc.reverse, c)
  | Nat.succ k, c, acc =>
    match c.fetchone with
    | .error e => .error e
    | .ok (row, c1) =>
      if ¬ rowTruthy row then .ok (acc.reverse, c1)
      else
        match c1.fetchone with
        | .error e => .error e
        | .ok (row2, c2) => Cursor.fetchmanyAux k c2 (row2 :: acc)

/-- `Cursor.fetchmany(size)` (with the `size=None` default already resolved
to `self.arraysize` by the caller). -/
def Cursor.fetchmany (c : Cursor) (size : Nat) :
    Except PyErr (List (Option (List Value)) × Cursor) :=
  match c._assertOpen with
  | .error e => .error e
  | .ok _ => Cursor.fetchmanyAux size c []

/-- The `while row:` loop of `Cursor.fetchall`.  `fuel` bounds the number of
iterations; the source loop always terminates because every truthy `fetchone`
advances `_row_idx`, so any fuel larger than the number of remaining rows
computes the loop result. -/
def Cursor.fetchallAux : Nat → Cursor → List (List Value) →
    Except PyErr (List (List Value) × Cursor)
  | 0, c, acc => .ok (acc.reverse, c)
  | Nat.succ k, c, acc =>
    match c.fetchone with
    | .error e => .error e
    | .ok (row, c1) =>
      match row with
      | some (v :: vs) => Cursor.fetchallAux k c1 ((v :: vs) :: acc)
      | _ => .ok (acc.reverse, c1)

/-- `Cursor.fetchall()`. -/
def Cursor.fetchall (c : Cursor) (fuel : Nat) :
    Except PyErr (List (List Value) × Cursor) :=
  match c._assertOpen with
  | .error e => .error e
  | .ok _ => Cursor.fetchallAux fuel c []

/-- `Cursor.setinputsizes`: a no-op that still validates the cursor is
open. -/
def Cursor.setinputsizes (c : Cursor) : Except PyErr Unit := c._assertOpen

/-- `Cursor.setoutputsize(size, column=None)`: a no-op that still validates
the cursor is open. -/
def Cursor.setoutputsize (c : Cursor) (size : Int) (column : Option Int) :
    Except PyErr Unit := c._assertOpen

/-- The connection parameter map
`(sql_server, sql_database, sql_user, sql_password, connection_name,
http_keepalive, sql)`. -/
structure ConnParams where
  sql_server : String
  sql_database : String
  sql_user : String
  sql_password : String
  connection_name : String
  http_keepalive : Int
  sql : String

/-- A `Connection`: the relay endpoint URL and the shared parameter map. -/
structure Connection where
  url : String
  params : ConnParams

/-- The in-place rewrite of the shared parameter map performed by every
`Cursor.execute`: `params['sql'] = '-- %s\n%s' % (params['connection_name'],
operation)`. -/
def Connection.withSql (conn : Connection) (operation : String) : Connection :=
  { conn with params :=
      { conn.params with
        sql := "-- " ++ conn.params.connection_name ++ "\n" ++ operation } }

/-- The outcome of one `Cursor.execute` call: the connection (whose shared
parameter map may have been mutated), the cursor state after the call, and
the exception raised, if any.  Mutations performed before a raise survive it,
exactly as in Python. -/
structure ExecOutcome where
  conn : Connection
  cursor : Cursor
  raised : Option PyErr

/-- The part of `Cursor.execute` after the parameter-map rewrite and the
transport exchange: wrap the parsed response in `DBRelayData`, consult the
`error` property, raise `DatabaseError` on a truthy error value, otherwise
reset the result-set index and advance to the first result set. -/
def Cursor.execute_response (conn : Connection) (c : Cursor) (response : Json) :
    ExecOutcome :=
  match DBRelayData.init response with
  | .error e => ⟨conn, c, some e⟩
  | .ok doc =>
    let c1 := { c with _data := some doc }
    match DBRelayData.error doc with
    | .error e => ⟨conn, c1, some e⟩
    | .ok err =>
      if err.truthy then ⟨conn, c1, some (.databaseError err)⟩
      else
        let c2 := { c1 with _set_idx := -1 }
        match c2.nextset with
        | (c3, .error e) => ⟨conn, c3, some e⟩
        | (c3, .ok _) => ⟨conn, c3, none⟩

/-- `Cursor.execute(operation, parameters=None)`: assert the cursor open,
rewrite the `sql` entry of the shared parameter map, perform the transport
exchange (external; `response` is the document `json.load` returns), then
process the response.  The `parameters` argument is ignored by the source. -/
def Cursor.execute (c : Cursor) (conn : Connection) (operation : String)
    (response : Json) : ExecOutcome :=
  if ¬ c._open then ⟨conn, c, some (.internalError "pydbrelay Cursor is closed.")⟩
  else Cursor.execute_response (conn.withSql operation) c response

/-- A non-empty all-digit component, as produced by splitting a well-formed
date/time string. -/
abbrev DigitStr (cs : List Char) : Prop := cs ≠ [] ∧ cs.all Char.isDigit = true

/-- A cursor with result set 0 of `doc` active, as left by a successful
`execute` of a single-result-set response. -/
def loadedCursor (doc : Json) : Cursor :=
  { _open := true, description := none, rowcount := -1, arraysize := 1,
    _data := some doc, _set_idx := 0, _row_idx := 0 }

def fieldsA : Json :=
  Json.arr [Json.obj [("name", Json.str "a"), ("sql_type", Json.str "int")]]

/-- `\x7b"data": [\x7b"fields": [\x7b"name": "a", "sql_type": "int"\x7d],
"rows": [\x7b"a": 1\x7d]\x7d]\x7d`. -/
def oneRowDoc : Json :=
  Json.obj [("data", Json.arr [Json.obj
    [("fields", fieldsA), ("rows", Json.arr [Json.obj [("a", Json.num 1)]])]])]

/-- Same response with two rows `\x7b"a": 1\x7d, \x7b"a": 2\x7d`. -/
def twoRowDoc : Json :=
  Json.obj [("data", Json.arr [Json.obj
    [("fields", fieldsA),
     ("rows", Json.arr [Json.obj [("a", Json.num 1)], Json.obj [("a", Json.num 2)]])]])]

/-- A response whose only result set declares an empty field list but carries
two (non-empty) raw row records. -/
def emptyFieldsDoc : Json :=
  Json.obj [("data", Json.arr [Json.obj
    [("fields", Json.arr []),
     ("rows", Json.arr [Json.obj [("x", Json.num 7)], Json.obj [("x", Json.num 8)]])]])]

def conn0 : Connection :=
  ⟨"http://localhost:8080/sql",
   ⟨"server", "db", "user", "pw", "pydbrelay", 0, ""⟩⟩

theorem data_mk (l : List Char) : (String.mk l).data = l := rfl

theorem resplit_no_delim (ds xs : List Char) (h : ∀ c ∈ xs, c ∉ ds) :
    resplit ds xs = [xs] := by
  induction xs with
  | nil => rfl
  | cons c rest ih =>
    have hc : c ∉ ds := h c (by simp)
    have hr : resplit ds rest = [rest] := ih (fun a ha => h a (by simp [ha]))
    simp [resplit, hc, hr]

theorem resplit_delim_split (ds xs rest : List Char) (d : Char)
    (hd : d ∈ ds) (h : ∀ c ∈ xs, c ∉ ds) :
    resplit ds (xs ++ d :: rest) = xs :: resplit ds rest := by
  induction xs with
  | nil => simp [resplit, hd]
  | cons c t ih =>
    have hc : c ∉ ds := h c (by simp)
    have ht := ih (fun a ha => h a (by simp [ha]))
    simp [resplit, hc, ht]

theorem digit_not_delim (c : Char) (h : c.isDigit = true) (ds : List Char)
    (hds : ∀ d ∈ ds, d ∈ ['-', ' ', ':', '.']) : c ∉ ds := by
  intro hmem
  have := hds c hmem
  fin_cases this <;> exact absurd h (by decide)

theorem digits_not_delims (cs : List Char) (h : cs.all Char.isDigit = true)
    (ds : List Char) (hds : ∀ d ∈ ds, d ∈ ['-', ' ', ':', '.']) :
    ∀ c ∈ cs, c ∉ ds := by
  intro c hc
  exact digit_not_delim c (by exact List.all_eq_true.mp h c hc) ds hds

theorem natOfDigits_snoc (a : List Char) (c : Char) :
    natOfDigits (a ++ [c]) = natOfDigits a * 10 + (c.toNat - 48) := by
  simp [natOfDigits, List.foldl_append]

theorem natOfDigits_zeros (k : Nat) :
    ∀ a, natOfDigits (a ++ List.replicate k '0') = natOfDigits a * 10 ^ k := by
  induction k with
  | zero => simp
  | succ n ih =>
    intro a
    have hsplit : a ++ List.replicate (n + 1) '0' = (a ++ ['0']) ++ List.replicate n '0' := by
      simp [List.replicate_succ]
    rw [hsplit, ih, natOfDigits_snoc]
    have h0 : ('0' : Char).toNat - 48 = 0 := by decide
    rw [h0, pow_succ]
    ring

theorem digitChar_isDigit (k : Nat) : (digitChar k).isDigit = true := by
  unfold digitChar
  split <;> decide

theorem digitChar_val (k : Nat) (h : k < 10) : (digitChar k).toNat - 48 = k := by
  interval_cases k <;> decide

theorem pyStrNatAux_digits (fuel : Nat) : ∀ n, DigitStr (pyStrNatAux fuel n) := by
  induction fuel with
  | zero =>
    intro n
    exact ⟨by simp [pyStrNatAux], by simp [pyStrNatAux, digitChar_isDigit]⟩
  | succ f ih =>
    intro n
    unfold pyStrNatAux
    by_cases h : n < 10
    · simp only [h, if_true]
      exact ⟨by simp, by simp [digitChar_isDigit]⟩
    · simp only [h, if_false]
      have htail := ih (n / 10)
      refine ⟨by simp, ?_⟩
      rw [List.all_append]
      simp [htail.2, digitChar_isDigit]

theorem pyStrNat_digits (n : Nat) : DigitStr (pyStrNat n) := pyStrNatAux_digits n n

theorem natOfDigits_pyStrNatAux (fuel : Nat) :
    ∀ n, n ≤ fuel → natOfDigits (pyStrNatAux fuel n) = n := by
  induction fuel with
  | zero =>
    intro n hn
    have : n = 0 := by omega
    subst this
    decide
  | succ f ih =>
    intro n hn
    unfold pyStrNatAux
    by_cases h : n < 10
    · simp only [h, if_true]
      have := digitChar_val n h
      simp [natOfDigits]
      omega
    · simp only [h, if_false]
      have hdiv : n / 10 < n := Nat.div_lt_self (by omega) (by decide)
      rw [natOfDigits_snoc, ih (n / 10) (by omega)]
      rw [digitChar_val (n % 10) (Nat.mod_lt _ (by decide))]
      omega

theorem natOfDigits_pyStrNat (n : Nat) : natOfDigits (pyStrNat n) = n :=
  natOfDigits_pyStrNatAux n n (Nat.le_refl n)

theorem parsePyNat_digits (cs : List Char) (h : DigitStr cs) :
    parsePyNat cs = .ok (natOfDigits cs) := by
  unfold parsePyNat
  simp only [DigitStr] at h
  rw [if_pos h]

/-- `int(str(micro).ljust(6, '0'))` computed: the decimal rendering of the
integer is padded, so the result is `micro` scaled by the missing digit
count. -/
theorem parse_ljust_pyStrNat (m : Nat) :
    parsePyNat (ljust6 (pyStrNat m)) = .ok (m * 10 ^ (6 - (pyStrNat m).length)) := by
  have hd := pyStrNat_digits m
  unfold ljust6
  rw [parsePyNat_digits]
  · rw [natOfDigits_zeros, natOfDigits_pyStrNat]
  · refine ⟨by simp [hd.1], ?_⟩
    rw [List.all_append]
    simp [hd.2, List.all_eq_true]

theorem lookupKey_some_any (kvs : List (String × Json)) (k : String) (v : Json)
    (h : Json.lookupKey kvs k = some v) : kvs.any (fun kv => kv.1 == k) = true := by
  induction kvs with
  | nil => simp [Json.lookupKey] at h
  | cons p rest ih =>
    obtain ⟨a, b⟩ := p
    by_cases hk : a = k
    · simp [hk]
    · simp only [Json.lookupKey, if_neg hk] at h
      simp [ih h]

theorem lookupKey_none_any (kvs : List (String × Json)) (k : String)
    (h : Json.lookupKey kvs k = none) : kvs.any (fun kv => kv.1 == k) = false := by
  induction kvs with
  | nil => simp
  | cons p rest ih =>
    obtain ⟨a, b⟩ := p
    by_cases hk : a = k
    · simp [Json.lookupKey, hk] at h
    · simp only [Json.lookupKey, if_neg hk] at h
      simp [hk, ih h]

/-- C1 (amended): the `error` accessor returns the relay message exactly when
the `log` entry is truthy and contains an `error` key, returns `None` when a
`log` key is present but falsy or lacks `error`, and raises `KeyError` on
every tree without a `log` key (the subscript `self._json['log']` is
unconditional); `execute` consults the accessor on every response and
propagates what it raises. -/
theorem claim_C1_error_accessor :
    (∀ kvs : List (String × Json), Json.lookupKey kvs "log" = none →
      DBRelayData.error (Json.obj kvs) = .error (.keyError "log")) ∧
    (∀ (kvs : List (String × Json)) (log : Json),
      Json.lookupKey kvs "log" = some log → log.truthy = false →
      DBRelayData.error (Json.obj kvs) = .ok Json.null) ∧
    (∀ (kvs lkvs : List (String × Json)) (msg : Json),
      Json.lookupKey kvs "log" = some (Json.obj lkvs) →
      (Json.obj lkvs).truthy = true → Json.lookupKey lkvs "error" = some msg →
      DBRelayData.error (Json.obj kvs) = .ok msg) ∧
    (∀ kvs lkvs : List (String × Json),
      Json.lookupKey kvs "log" = some (Json.obj lkvs) →
      Json.lookupKey lkvs "error" = none →
      DBRelayData.error (Json.obj kvs) = .ok Json.null) ∧
    (∀ (c : Cursor) (conn : Connection) (op : String) (resp : Json) (e : PyErr),
      c._open = true → resp.truthy = true → DBRelayData.error resp = .error e →
      (c.execute conn op resp).raised = some e) := by
  refine ⟨?_, ?_, ?_, ?_, ?_⟩
  · intro kvs h
    simp [DBRelayData.error, Json.subscript, h]
  · intro kvs log h1 h2
    simp [DBRelayData.error, Json.subscript, h1, h2]
  · intro kvs lkvs msg h1 h2 h3
    have hc := lookupKey_some_any lkvs "error" msg h3
    simp [DBRelayData.error, Json.subscript, h1, h2, pyContains, hc, h3]
  · intro kvs lkvs h1 h2
    have hc := lookupKey_none_any lkvs "error" h2
    simp [DBRelayData.error, Json.subscript, h1, pyContains, hc]
  · intro c conn op resp e h1 h2 h3
    simp [Cursor.execute, h1, Cursor.execute_response, DBRelayData.init, h2, h3]

/-- C1 witness: the amended behaviors at concrete documents, including the
propagated `KeyError` for a log-less response inside `execute`. -/
theorem claim_C1_error_accessor_witness :
    DBRelayData.error (Json.obj [("data", Json.arr [])]) = .error (.keyError "log") ∧
    DBRelayData.error (Json.obj [("log", Json.null)]) = .ok Json.null ∧
    DBRelayData.error (Json.obj [("log", Json.obj [("error", Json.str "boom")])]) =
      .ok (Json.str "boom") ∧
    DBRelayData.error (Json.obj [("log", Json.obj [("sql", Json.str "select 1")])]) =
      .ok Json.null ∧
    (Cursor.execute Cursor.init conn0 "select 1" oneRowDoc).raised =
      some (.keyError "log") := by
  refine ⟨?_, ?_, ?_, ?_, ?_⟩
  · exact claim_C1_error_accessor.1 [("data", Json.arr [])] rfl
  · exact claim_C1_error_accessor.2.1 [("log", Json.null)] Json.null rfl rfl
  · exact claim_C1_error_accessor.2.2.1 [("log", Json.obj [("error", Json.str "boom")])]
      [("error", Json.str "boom")] (Json.str "boom") rfl rfl rfl
  · exact claim_C1_error_accessor.2.2.2.1 [("log", Json.obj [("sql", Json.str "select 1")])]
      [("sql", Json.str "select 1")] rfl rfl
  · exact claim_C1_error_accessor.2.2.2.2 Cursor.init conn0 "select 1" oneRowDoc
      (.keyError "log") rfl rfl rfl

/-- C1 counterexample: on the successful response shape `\x7b"data": [...]\x7d`
the `error` accessor raises `KeyError` instead of returning `None` without
failing, refuting the claim as stated. -/
theorem claim_C1_counterexample :
    DBRelayData.error (Json.obj [("data", Json.arr [])]) = .error (.keyError "log") ∧
    DBRelayData.error (Json.obj [("data", Json.arr [])]) ≠ .ok Json.null := by
  refine ⟨rfl, ?_⟩
  intro h
  rw [show DBRelayData.error (Json.obj [("data", Json.arr [])]) =
    .error (.keyError "log") from rfl] at h
  exact Except.noConfusion h

theorem cmpEq_false (tob : DBAPITypeObject) (t : String)
    (h : tob.values.contains t = false) (hne : tob.values ≠ []) :
    tob.cmpEq (Json.str t) = .ok false := by
  unfold DBAPITypeObject.cmpEq
  show (if tob.values.contains t = true then Except.ok true else
    match tob.values with
    | [] => Except.error (PyErr.valueError "min() arg is an empty sequence")
    | _ :: _ => Except.ok false) = Except.ok false
  rw [h]
  simp only [Bool.false_eq_true, if_false]
  cases hv : tob.values with
  | nil => exact absurd hv hne
  | cons a as => rfl

/-- C2: for a non-null raw value and a wire type tag outside every category
tag set (and distinct from `null`), the dispatch loop reaches the empty-set
`ROWID` category, whose comparison evaluates `min()` of an empty set: the
coercion raises `ValueError` instead of passing the value through, so the
identity fall-through line is unreachable. -/
theorem claim_C2_unmatched_tag (e : Json) (t : String)
    (he : e.isNull = false)
    (h1 : numberTags.contains t = false) (h2 : stringTags.contains t = false)
    (h3 : datetimeTags.contains t = false) (h4 : binaryTags.contains t = false)
    (h5 : t ≠ "null") :
    Cursor.type_map e (Json.str t) =
      .error (.valueError "min() arg is an empty sequence") := by
  have hnull : tagEq (Json.str t) "null" = false := by simp [tagEq, h5]
  unfold Cursor.type_map
  rw [he, hnull]
  simp only [Bool.or_false, Bool.false_eq_true, if_false]
  simp only [typeLoop, cmpEq_false NUMBER t h1 (by decide),
    cmpEq_false STRING t h2 (by decide), cmpEq_false DATETIME t h3 (by decide),
    cmpEq_false BINARY t h4 (by decide)]
  rfl

/-- C2 witness: the concrete failing input `element = 5`, `sql_type = "foo"`. -/
theorem claim_C2_unmatched_tag_witness :
    Cursor.type_map (Json.num 5) (Json.str "foo") =
      .error (.valueError "min() arg is an empty sequence") :=
  claim_C2_unmatched_tag (Json.num 5) "foo" rfl (by decide) (by decide) (by decide)
    (by decide) (by decide)

/-- C3 (amended): when the response document carries a non-empty relay error
message, `execute` raises `DatabaseError` with that message verbatim; the
cursor retains only the error document (which has no result sets), so a
subsequent `fetchone` raises `Error` rather than finding a usable result
set. -/
theorem claim_C3_error_raises (c : Cursor) (conn : Connection) (op msg : String)
    (hopen : c._open = true) (hmsg : msg ≠ "") :
    (Cursor.execute c conn op
        (Json.obj [("log", Json.obj [("error", Json.str msg)])])).raised =
      some (.databaseError (Json.str msg)) ∧
    (Cursor.execute c conn op
        (Json.obj [("log", Json.obj [("error", Json.str msg)])])).cursor =
      { c with _data := some (Json.obj [("log", Json.obj [("error", Json.str msg)])]) } ∧
    Cursor.fetchone
        { c with _data := some (Json.obj [("log", Json.obj [("error", Json.str msg)])]) } =
      .error (.error "Empty result set.") := by
  have htr : (Json.str msg).truthy = true := by simp [Json.truthy, hmsg]
  refine ⟨?_, ?_, ?_⟩
  · simp [Cursor.execute, hopen, Cursor.execute_response, DBRelayData.init,
      Json.truthy, DBRelayData.error, Json.subscript, Json.lookupKey, pyContains,
      substrCheck, htr, hmsg]
  · simp [Cursor.execute, hopen, Cursor.execute_response, DBRelayData.init,
      Json.truthy, DBRelayData.error, Json.subscript, Json.lookupKey, pyContains,
      substrCheck, htr, hmsg]
  · simp [Cursor.fetchone, Cursor._assertOpen, hopen, DBRelayData.data,
      pyContains, Json.truthy]

/-- C3 witness: the spec example `\x7b"log":\x7b"error":"bad sql"\x7d\x7d`. -/
theorem claim_C3_error_raises_witness :
    (Cursor.execute Cursor.init conn0 "select 1"
        (Json.obj [("log", Json.obj [("error", Json.str "bad sql")])])).raised =
      some (.databaseError (Json.str "bad sql")) ∧
    (Cursor.execute Cursor.init conn0 "select 1"
        (Json.obj [("log", Json.obj [("error", Json.str "bad sql")])])).cursor =
      { Cursor.init with
        _data := some (Json.obj [("log", Json.obj [("error", Json.str "bad sql")])]) } ∧
    Cursor.fetchone
        { Cursor.init with
          _data := some (Json.obj [("log", Json.obj [("error", Json.str "bad sql")])]) } =
      .error (.error "Empty result set.") :=
  claim_C3_error_raises Cursor.init conn0 "select 1" "bad sql" rfl (by decide)

/-- C3 counterexample: `\x7b"log":\x7b"error":""\x7d\x7d` reports a relay error
(the `error` accessor is present, returning `""`), yet `execute` tests the
message for truthiness and raises nothing. -/
theorem claim_C3_counterexample :
    DBRelayData.error (Json.obj [("log", Json.obj [("error", Json.str "")])]) =
      .ok (Json.str "") ∧
    (Cursor.execute Cursor.init conn0 "select 1"
        (Json.obj [("log", Json.obj [("error", Json.str "")])])).raised = none :=
  ⟨rfl, rfl⟩

/-- C4: the `fetchmany` loop body calls `fetchone` twice per produced element:
on a two-row result set `fetchmany(2)` returns only the second row (the first
is fetched and discarded by the loop test), and on a one-row result set
`fetchmany(1)` returns `[None]` (a null element is appended).  `fetchall` on
the same two-row set returns both rows in order, showing the rows were
available. -/
theorem claim_C4_fetchmany_double_fetch :
    Except.map Prod.fst ((loadedCursor twoRowDoc).fetchmany 2) =
      .ok [some [Value.raw (Json.num 2)]] ∧
    Except.map Prod.fst ((loadedCursor oneRowDoc).fetchmany 1) = .ok [none] ∧
    Except.map Prod.fst ((loadedCursor twoRowDoc).fetchall 5) =
      .ok [[Value.raw (Json.num 1)], [Value.raw (Json.num 2)]] :=
  ⟨rfl, rfl, rfl⟩

/-- The success path of `fetchone`: with a row available, the returned row is
the record values in field-name order coerced through the type map, and the
row index advances by one. -/
theorem fetchone_success_row (c : Cursor) (doc : Json) (sets rows : List Json)
    (row : Json) (cols elements sql_types : List Json) (vals : List Value)
    (hopen : c._open = true) (hdata : c._data = some doc)
    (hdd : DBRelayData.data doc = .ok (Json.arr sets)) (hne : sets ≠ [])
    (hset : c._set_idx < (sets.length : Int))
    (hrows : DBRelayData.get_rows doc c._set_idx = .ok (Json.arr rows))
    (hrow : c._row_idx < (rows.length : Int))
    (hridx : (Json.arr rows).index c._row_idx = .ok row)
    (hcols : DBRelayData.get_names doc c._set_idx = .ok cols)
    (helems : mapSubscript row cols = .ok elements)
    (htypes : DBRelayData.get_sql_types doc c._set_idx = .ok sql_types)
    (hvals : map2 elements sql_types = .ok vals) :
    c.fetchone = .ok (some vals, { c with _row_idx := c._row_idx + 1 }) := by
  cases sets with
  | nil => exact absurd rfl hne
  | cons s0 srest =>
    have h1 : c._assertOpen = .ok () := by simp [Cursor._assertOpen, hopen]
    simp only [Cursor.fetchone, h1, hdata, hdd]
    split
    · next hcond => simp [Json.truthy] at hcond
    · simp only [pyLen]
      split
      · next hcond => simp at hcond
      · split
        · next hcond => exact absurd hset (by omega)
        · simp only [hrows, pyLen]
          split
          · next hcond => exact absurd hrow (by omega)
          · simp only [hridx, hcols, helems, htypes, hvals]

/-- C5: on an open cursor, `fetchone` raises `Error` when no result document
is loaded, raises `Error` when the document result-set collection is absent
or empty, returns `None` with the cursor unchanged (hence repeatedly) once
the row index has passed the last row of the current result set, and
otherwise returns the row record values in field-name order, coerced through
the type map, with the row index advanced by one. -/
theorem claim_C5_fetchone_behavior :
    (∀ c : Cursor, c._open = true → c._data = none →
      c.fetchone = .error (.error "No result set.")) ∧
    (∀ (c : Cursor) (doc d : Json), c._open = true → c._data = some doc →
      DBRelayData.data doc = .ok d → d.truthy = false →
      c.fetchone = .error (.error "Empty result set.")) ∧
    (∀ (c : Cursor) (doc : Json) (sets rows : List Json),
      c._open = true → c._data = some doc →
      DBRelayData.data doc = .ok (Json.arr sets) → sets ≠ [] →
      c._set_idx < (sets.length : Int) →
      DBRelayData.get_rows doc c._set_idx = .ok (Json.arr rows) →
      (rows.length : Int) ≤ c._row_idx →
      c.fetchone = .ok (none, c)) ∧
    (∀ (c : Cursor) (doc : Json) (sets rows : List Json) (row : Json)
        (cols elements sql_types : List Json) (vals : List Value),
      c._open = true → c._data = some doc →
      DBRelayData.data doc = .ok (Json.arr sets) → sets ≠ [] →
      c._set_idx < (sets.length : Int) →
      DBRelayData.get_rows doc c._set_idx = .ok (Json.arr rows) →
      c._row_idx < (rows.length : Int) →
      (Json.arr rows).index c._row_idx = .ok row →
      DBRelayData.get_names doc c._set_idx = .ok cols →
      mapSubscript row cols = .ok elements →
      DBRelayData.get_sql_types doc c._set_idx = .ok sql_types →
      map2 elements sql_types = .ok vals →
      c.fetchone = .ok (some vals, { c with _row_idx := c._row_idx + 1 })) := by
  refine ⟨?_, ?_, ?_, ?_⟩
  · intro c hopen hdata
    have h1 : c._assertOpen = .ok () := by simp [Cursor._assertOpen, hopen]
    simp [Cursor.fetchone, h1, hdata]
  · intro c doc d hopen hdata hdd ht
    have h1 : c._assertOpen = .ok () := by simp [Cursor._assertOpen, hopen]
    simp [Cursor.fetchone, h1, hdata, hdd, ht]
  · intro c doc sets rows hopen hdata hdd hne hset hrows hrow
    cases sets with
    | nil => exact absurd rfl hne
    | cons s0 srest =>
      have h1 : c._assertOpen = .ok () := by simp [Cursor._assertOpen, hopen]
      simp only [Cursor.fetchone, h1, hdata, hdd]
      split
      · next hcond => simp [Json.truthy] at hcond
      · simp only [pyLen]
        split
        · next hcond => simp at hcond
        · split
          · rfl
          · simp only [hrows, pyLen]
            split
            · rfl
            · next hcond => exact absurd hrow (by omega)
  · intro c doc sets rows row cols elements sql_types vals hopen hdata hdd hne
      hset hrows hrow hridx hcols helems htypes hvals
    exact fetchone_success_row c doc sets rows row cols elements sql_types vals
      hopen hdata hdd hne hset hrows hrow hridx hcols helems htypes hvals

/-- C5 witness: the four behaviors at concrete cursor states over
`twoRowDoc`. -/
theorem claim_C5_fetchone_behavior_witness :
    Cursor.init.fetchone = .error (.error "No result set.") ∧
    Cursor.fetchone { Cursor.init with _data := some (Json.obj [("log", Json.null)]) } =
      .error (.error "Empty result set.") ∧
    Cursor.fetchone { loadedCursor twoRowDoc with _row_idx := 2 } =
      .ok (none, { loadedCursor twoRowDoc with _row_idx := 2 }) ∧
    (loadedCursor twoRowDoc).fetchone =
      .ok (some [Value.raw (Json.num 1)], { loadedCursor twoRowDoc with _row_idx := 1 }) := by
  refine ⟨?_, ?_, ?_, ?_⟩
  · exact claim_C5_fetchone_behavior.1 Cursor.init rfl rfl
  · exact claim_C5_fetchone_behavior.2.1 _ (Json.obj [("log", Json.null)]) Json.null
      rfl rfl rfl rfl
  · exact claim_C5_fetchone_behavior.2.2.1 _ twoRowDoc
      [Json.obj [("fields", fieldsA),
        ("rows", Json.arr [Json.obj [("a", Json.num 1)], Json.obj [("a", Json.num 2)]])]]
      [Json.obj [("a", Json.num 1)], Json.obj [("a", Json.num 2)]]
      rfl rfl rfl (List.cons_ne_nil _ _) (by decide) rfl (by decide)
  · exact claim_C5_fetchone_behavior.2.2.2 _ twoRowDoc
      [Json.obj [("fields", fieldsA),
        ("rows", Json.arr [Json.obj [("a", Json.num 1)], Json.obj [("a", Json.num 2)]])]]
      [Json.obj [("a", Json.num 1)], Json.obj [("a", Json.num 2)]]
      (Json.obj [("a", Json.num 1)]) [Json.str "a"] [Json.num 1] [Json.str "int"]
      [Value.raw (Json.num 1)]
      rfl rfl rfl (List.cons_ne_nil _ _) (by decide) rfl (by decide) rfl rfl rfl rfl rfl

theorem get_fields_null (doc : Json) (sets : List Json) (idx : Int)
    (hdd : DBRelayData.data doc = .ok (Json.arr sets))
    (hout : idx < 0 ∨ (sets.length : Int) ≤ idx) :
    DBRelayData.get_fields doc idx = .ok Json.null := by
  simp only [DBRelayData.get_fields, hdd]
  split
  · split
    · next h0 =>
      simp only [pyLen]
      split
      · next hlt => exact absurd hlt (by rcases hout with h | h <;> omega)
      · rfl
    · rfl
  · rfl

theorem get_rows_null (doc : Json) (sets : List Json) (idx : Int)
    (hdd : DBRelayData.data doc = .ok (Json.arr sets))
    (hout : idx < 0 ∨ (sets.length : Int) ≤ idx) :
    DBRelayData.get_rows doc idx = .ok Json.null := by
  simp only [DBRelayData.get_rows, hdd]
  split
  · split
    · next h0 =>
      simp only [pyLen]
      split
      · next hlt => exact absurd hlt (by rcases hout with h | h <;> omega)
      · rfl
    · rfl
  · rfl

/-- C6 (amended): out of range, `get_fields` and `get_rows` yield `None` and
`get_names`, `get_sql_types`, `get_blanks` yield the empty list, all without
failing; but `get_precisions` and `get_scales` iterate the absent fields
value without a guard and raise `TypeError` on every out-of-range index. -/
theorem claim_C6_accessor_totality :
    (∀ (doc : Json) (sets : List Json) (idx : Int),
      DBRelayData.data doc = .ok (Json.arr sets) →
      (idx < 0 ∨ (sets.length : Int) ≤ idx) →
      DBRelayData.get_fields doc idx = .ok Json.null ∧
      DBRelayData.get_rows doc idx = .ok Json.null) ∧
    (∀ (doc : Json) (idx : Int),
      DBRelayData.get_fields doc idx = .ok Json.null →
      DBRelayData.get_names doc idx = .ok [] ∧
      DBRelayData.get_sql_types doc idx = .ok [] ∧
      DBRelayData.get_blanks doc idx = .ok [] ∧
      DBRelayData.get_precisions doc idx = .error (.typeError "NoneType is not iterable") ∧
      DBRelayData.get_scales doc idx = .error (.typeError "NoneType is not iterable")) := by
  constructor
  · intro doc sets idx hdd hout
    exact ⟨get_fields_null doc sets idx hdd hout, get_rows_null doc sets idx hdd hout⟩
  · intro doc idx h
    refine ⟨?_, ?_, ?_, ?_, ?_⟩
    · simp [DBRelayData.get_names, h, Json.truthy]
    · simp [DBRelayData.get_sql_types, h, Json.truthy]
    · simp [DBRelayData.get_blanks, h, Json.truthy]
    · simp [DBRelayData.get_precisions, h, pyIterate]
    · simp [DBRelayData.get_scales, h, pyIterate]

/-- C6 witness: the accessors at `twoRowDoc` with the out-of-range indices
`5` and `-1`. -/
theorem claim_C6_accessor_totality_witness :
    (DBRelayData.get_fields twoRowDoc 5 = .ok Json.null ∧
      DBRelayData.get_rows twoRowDoc 5 = .ok Json.null) ∧
    DBRelayData.get_names twoRowDoc (-1) = .ok [] ∧
    DBRelayData.get_sql_types twoRowDoc (-1) = .ok [] ∧
    DBRelayData.get_blanks twoRowDoc (-1) = .ok [] ∧
    DBRelayData.get_precisions twoRowDoc (-1) =
      .error (.typeError "NoneType is not iterable") ∧
    DBRelayData.get_scales twoRowDoc (-1) =
      .error (.typeError "NoneType is not iterable") := by
  constructor
  · exact claim_C6_accessor_totality.1 twoRowDoc
      [Json.obj [("fields", fieldsA),
        ("rows", Json.arr [Json.obj [("a", Json.num 1)], Json.obj [("a", Json.num 2)]])]]
      5 rfl (Or.inr (by decide))
  · exact claim_C6_accessor_totality.2 twoRowDoc (-1) rfl

/-- C6 counterexample: `get_precisions` and `get_scales` fail with
`TypeError` on out-of-range indices instead of yielding an empty or absent
result. -/
theorem claim_C6_counterexample :
    DBRelayData.get_precisions twoRowDoc 5 =
      .error (.typeError "NoneType is not iterable") ∧
    DBRelayData.get_scales twoRowDoc (-1) =
      .error (.typeError "NoneType is not iterable") := ⟨rfl, rfl⟩

/-- C8: after `close()`, every fetch, execute, nextset, setinputsizes and
setoutputsize call raises `InternalError`, the connection state is untouched
by the refused execute, and closing again is the identity (idempotent; close
itself is a total function and never raises). -/
theorem claim_C8_closed_cursor (c : Cursor) (conn : Connection) (op : String)
    (resp : Json) (size fuel : Nat) (sz : Int) (col : Option Int) :
    (Cursor.close c)._open = false ∧
    Cursor.close (Cursor.close c) = Cursor.close c ∧
    (Cursor.close c).fetchone = .error (.internalError "pydbrelay Cursor is closed.") ∧
    (Cursor.close c).fetchmany size =
      .error (.internalError "pydbrelay Cursor is closed.") ∧
    (Cursor.close c).fetchall fuel =
      .error (.internalError "pydbrelay Cursor is closed.") ∧
    (Cursor.close c).execute conn op resp =
      ⟨conn, Cursor.close c, some (.internalError "pydbrelay Cursor is closed.")⟩ ∧
    (Cursor.close c).nextset =
      (Cursor.close c, .error (.internalError "pydbrelay Cursor is closed.")) ∧
    (Cursor.close c).setinputsizes =
      .error (.internalError "pydbrelay Cursor is closed.") ∧
    (Cursor.close c).setoutputsize sz col =
      .error (.internalError "pydbrelay Cursor is closed.") :=
  ⟨rfl, rfl, rfl, rfl, rfl, rfl, rfl, rfl, rfl⟩

theorem execute_response_conn (conn : Connection) (c : Cursor) (resp : Json) :
    (Cursor.execute_response conn c resp).conn = conn := by
  unfold Cursor.execute_response
  split
  · rfl
  · split
    · rfl
    · split
      · rfl
      · dsimp only
        split
        · rfl
        · rfl

/-- C9: on an open cursor, `execute` rewrites exactly the `sql` entry of the
shared parameter map (to the connection-name comment line followed by the
SQL text); the other six parameter entries and the connection URL are
unchanged, whatever the response. -/
theorem claim_C9_execute_frame (c : Cursor) (conn : Connection) (op : String)
    (resp : Json) (h : c._open = true) :
    (c.execute conn op resp).conn.url = conn.url ∧
    (c.execute conn op resp).conn.params.sql_server = conn.params.sql_server ∧
    (c.execute conn op resp).conn.params.sql_database = conn.params.sql_database ∧
    (c.execute conn op resp).conn.params.sql_user = conn.params.sql_user ∧
    (c.execute conn op resp).conn.params.sql_password = conn.params.sql_password ∧
    (c.execute conn op resp).conn.params.connection_name = conn.params.connection_name ∧
    (c.execute conn op resp).conn.params.http_keepalive = conn.params.http_keepalive ∧
    (c.execute conn op resp).conn.params.sql =
      "-- " ++ conn.params.connection_name ++ "\n" ++ op := by
  have hc : (c.execute conn op resp).conn = conn.withSql op := by
    simp only [Cursor.execute, h]
    simp only [not_true, if_false, Bool.true_eq_false, ite_false]
    exact execute_response_conn _ _ _
  rw [hc]
  exact ⟨rfl, rfl, rfl, rfl, rfl, rfl, rfl, rfl⟩

/-- C9 witness: the frame condition at a concrete connection, statement and
response. -/
theorem claim_C9_execute_frame_witness :
    (Cursor.init.execute conn0 "select 1 as a" twoRowDoc).conn.url = conn0.url ∧
    (Cursor.init.execute conn0 "select 1 as a" twoRowDoc).conn.params.sql_server =
      conn0.params.sql_server ∧
    (Cursor.init.execute conn0 "select 1 as a" twoRowDoc).conn.params.sql_database =
      conn0.params.sql_database ∧
    (Cursor.init.execute conn0 "select 1 as a" twoRowDoc).conn.params.sql_user =
      conn0.params.sql_user ∧
    (Cursor.init.execute conn0 "select 1 as a" twoRowDoc).conn.params.sql_password =
      conn0.params.sql_password ∧
    (Cursor.init.execute conn0 "select 1 as a" twoRowDoc).conn.params.connection_name =
      conn0.params.connection_name ∧
    (Cursor.init.execute conn0 "select 1 as a" twoRowDoc).conn.params.http_keepalive =
      conn0.params.http_keepalive ∧
    (Cursor.init.execute conn0 "select 1 as a" twoRowDoc).conn.params.sql =
      "-- " ++ conn0.params.connection_name ++ "\n" ++ "select 1 as a" :=
  claim_C9_execute_frame Cursor.init conn0 "select 1 as a" twoRowDoc rfl

/-- C10: when the active result set declares an empty field list, `fetchone`
returns the empty row (advancing the row index), and the fetch loops treat
that row as end of data: `fetchall` returns the empty list and `fetchmany`
stops after the first probe, even though the raw rows sequence is
non-empty. -/
theorem claim_C10_empty_fields (c : Cursor) (doc : Json) (sets rows : List Json)
    (hopen : c._open = true) (hdata : c._data = some doc)
    (hdd : DBRelayData.data doc = .ok (Json.arr sets)) (hne : sets ≠ [])
    (hset : c._set_idx < (sets.length : Int))
    (hfields : DBRelayData.get_fields doc c._set_idx = .ok (Json.arr []))
    (hrows : DBRelayData.get_rows doc c._set_idx = .ok (Json.arr rows))
    (h0 : 0 ≤ c._row_idx) (hrow : c._row_idx < (rows.length : Int)) :
    c.fetchone = .ok (some [], { c with _row_idx := c._row_idx + 1 }) ∧
    (∀ fuel : Nat, c.fetchall (fuel + 1) =
      .ok ([], { c with _row_idx := c._row_idx + 1 })) ∧
    (∀ k : Nat, c.fetchmany (k + 1) =
      .ok ([], { c with _row_idx := c._row_idx + 1 })) := by
  have h1 : c._assertOpen = .ok () := by simp [Cursor._assertOpen, hopen]
  have hridx : (Json.arr rows).index c._row_idx =
      .ok (rows.getD c._row_idx.toNat Json.null) := by
    simp only [Json.index]
    rw [if_neg (by omega : ¬ c._row_idx < 0)]
    rw [if_pos (⟨h0, hrow⟩ : 0 ≤ c._row_idx ∧ c._row_idx < (rows.length : Int))]
  have hcols : DBRelayData.get_names doc c._set_idx = .ok [] := by
    simp [DBRelayData.get_names, hfields, Json.truthy]
  have htypes : DBRelayData.get_sql_types doc c._set_idx = .ok [] := by
    simp [DBRelayData.get_sql_types, hfields, Json.truthy]
  have hone : c.fetchone = .ok (some [], { c with _row_idx := c._row_idx + 1 }) :=
    fetchone_success_row c doc sets rows
      (rows.getD c._row_idx.toNat Json.null) [] [] [] []
      hopen hdata hdd hne hset hrows hrow hridx hcols rfl htypes rfl
  refine ⟨hone, ?_, ?_⟩
  · intro fuel
    simp only [Cursor.fetchall, h1, Cursor.fetchallAux, hone]
    rfl
  · intro k
    simp only [Cursor.fetchmany, h1, Cursor.fetchmanyAux, hone, rowTruthy]
    rfl

/-- C10 witness: the empty-field-list document with two raw rows. -/
theorem claim_C10_empty_fields_witness :
    (loadedCursor emptyFieldsDoc).fetchone =
      .ok (some [], { loadedCursor emptyFieldsDoc with _row_idx := 1 }) ∧
    (loadedCursor emptyFieldsDoc).fetchall 5 =
      .ok ([], { loadedCursor emptyFieldsDoc with _row_idx := 1 }) ∧
    (loadedCursor emptyFieldsDoc).fetchmany 3 =
      .ok ([], { loadedCursor emptyFieldsDoc with _row_idx := 1 }) := by
  have h := claim_C10_empty_fields (loadedCursor emptyFieldsDoc) emptyFieldsDoc
    [Json.obj [("fields", Json.arr []),
      ("rows", Json.arr [Json.obj [("x", Json.num 7)], Json.obj [("x", Json.num 8)]])]]
    [Json.obj [("x", Json.num 7)], Json.obj [("x", Json.num 8)]]
    rfl rfl rfl (List.cons_ne_nil _ _) (by decide) rfl rfl (by decide) (by decide)
  exact ⟨h.1, h.2.1 4, h.2.2 2⟩

theorem timeDelims_sub : ∀ d ∈ [':', '.'], d ∈ ['-', ' ', ':', '.'] := by decide

theorem dateDelims_sub : ∀ d ∈ ['-'], d ∈ ['-', ' ', ':', '.'] := by decide

theorem dtDelims_sub : ∀ d ∈ ['-', ' ', ':', '.'], d ∈ ['-', ' ', ':', '.'] := by decide

/-- C7 (amended): a `date` value splits on `-` into three components handed
to the `datetime.date` constructor; a `time` value splits on `:` and `.`,
with a missing fractional component defaulting to `0`; any other datetime
tag splits on `-`, space, `:` and `.` with missing trailing components
defaulting to `0`.  The fractional component is first converted to an
integer (discarding leading zeros) and the decimal rendering of that integer
is right-padded with zeros to 6 digits and read as microseconds, i.e. the
value is `int(frac)` scaled by `10 ^ (6 - digits(int(frac)))` — not the
padding of the fractional text itself. -/
theorem claim_C7_datetime_parsing :
    (∀ ys ms ds : List Char, DigitStr ys → DigitStr ms → DigitStr ds →
      DBAPIDateTime.to_object (Json.str (String.mk (ys ++ '-' :: (ms ++ '-' :: ds))))
          (Json.str "date") =
        datetime.date (natOfDigits ys) (natOfDigits ms) (natOfDigits ds)) ∧
    (∀ hs ms ss fs : List Char, DigitStr hs → DigitStr ms → DigitStr ss → DigitStr fs →
      DBAPIDateTime.to_object
          (Json.str (String.mk (hs ++ ':' :: (ms ++ ':' :: (ss ++ '.' :: fs)))))
          (Json.str "time") =
        datetime.time (natOfDigits hs) (natOfDigits ms) (natOfDigits ss)
          (natOfDigits fs * 10 ^ (6 - (pyStrNat (natOfDigits fs)).length))) ∧
    (∀ hs ms ss : List Char, DigitStr hs → DigitStr ms → DigitStr ss →
      DBAPIDateTime.to_object (Json.str (String.mk (hs ++ ':' :: (ms ++ ':' :: ss))))
          (Json.str "time") =
        datetime.time (natOfDigits hs) (natOfDigits ms) (natOfDigits ss) 0) ∧
    (∀ (t : String) (ys mos days hs mis ss fs : List Char),
      datetimeTags.contains t = true → t ≠ "date" → t ≠ "time" →
      DigitStr ys → DigitStr mos → DigitStr days → DigitStr hs → DigitStr mis →
      DigitStr ss → DigitStr fs →
      DBAPIDateTime.to_object
          (Json.str (String.mk (ys ++ '-' :: (mos ++ '-' :: (days ++ ' ' ::
            (hs ++ ':' :: (mis ++ ':' :: (ss ++ '.' :: fs))))))))
          (Json.str t) =
        datetime.datetime (natOfDigits ys) (natOfDigits mos) (natOfDigits days)
          (natOfDigits hs) (natOfDigits mis) (natOfDigits ss)
          (natOfDigits fs * 10 ^ (6 - (pyStrNat (natOfDigits fs)).length))) := by
  refine ⟨?_, ?_, ?_, ?_⟩
  · intro ys ms ds h1 h2 h3
    have e1 : resplit ['-'] (ys ++ '-' :: (ms ++ '-' :: ds)) = [ys, ms, ds] := by
      rw [resplit_delim_split ['-'] ys (ms ++ '-' :: ds) '-'
        (by decide) (digits_not_delims ys h1.2 _ dateDelims_sub)]
      rw [resplit_delim_split ['-'] ms ds '-'
        (by decide) (digits_not_delims ms h2.2 _ dateDelims_sub)]
      rw [resplit_no_delim ['-'] ds (digits_not_delims ds h3.2 _ dateDelims_sub)]
    unfold DBAPIDateTime.to_object
    rw [if_pos (by decide)]
    dsimp only [data_mk]
    rw [e1]
    simp only [mapInt, parsePyNat_digits ys h1, parsePyNat_digits ms h2,
      parsePyNat_digits ds h3]
  · intro hs ms ss fs h1 h2 h3 h4
    have e1 : resplit [':', '.'] (hs ++ ':' :: (ms ++ ':' :: (ss ++ '.' :: fs))) =
        [hs, ms, ss, fs] := by
      rw [resplit_delim_split [':', '.'] hs (ms ++ ':' :: (ss ++ '.' :: fs)) ':'
        (by decide) (digits_not_delims hs h1.2 _ timeDelims_sub)]
      rw [resplit_delim_split [':', '.'] ms (ss ++ '.' :: fs) ':'
        (by decide) (digits_not_delims ms h2.2 _ timeDelims_sub)]
      rw [resplit_delim_split [':', '.'] ss fs '.'
        (by decide) (digits_not_delims ss h3.2 _ timeDelims_sub)]
      rw [resplit_no_delim [':', '.'] fs (digits_not_delims fs h4.2 _ timeDelims_sub)]
    unfold DBAPIDateTime.to_object
    rw [if_neg (by decide), if_pos (by decide)]
    dsimp only [data_mk]
    rw [e1]
    simp only [List.length_cons, List.length_nil, Nat.sub_self, List.replicate,
      List.append_nil]
    simp only [mapInt, parsePyNat_digits hs h1, parsePyNat_digits ms h2,
      parsePyNat_digits ss h3, parsePyNat_digits fs h4]
    rw [parse_ljust_pyStrNat]
  · intro hs ms ss h1 h2 h3
    have e1 : resplit [':', '.'] (hs ++ ':' :: (ms ++ ':' :: ss)) = [hs, ms, ss] := by
      rw [resplit_delim_split [':', '.'] hs (ms ++ ':' :: ss) ':'
        (by decide) (digits_not_delims hs h1.2 _ timeDelims_sub)]
      rw [resplit_delim_split [':', '.'] ms ss ':'
        (by decide) (digits_not_delims ms h2.2 _ timeDelims_sub)]
      rw [resplit_no_delim [':', '.'] ss (digits_not_delims ss h3.2 _ timeDelims_sub)]
    unfold DBAPIDateTime.to_object
    rw [if_neg (by decide), if_pos (by decide)]
    dsimp only [data_mk]
    rw [e1]
    simp only [List.length_cons, List.length_nil]
    simp only [show (4 : Nat) - 3 = 1 from rfl, List.replicate_one]
    simp only [mapInt, parsePyNat_digits hs h1, parsePyNat_digits ms h2,
      parsePyNat_digits ss h3, parsePyNat_digits ['0'] (by decide)]
    rfl
  · intro t ys mos days hs mis ss fs hcont hnd hnt h1 h2 h3 h4 h5 h6 h7
    have e1 : resplit ['-', ' ', ':', '.'] (ys ++ '-' :: (mos ++ '-' :: (days ++ ' ' ::
        (hs ++ ':' :: (mis ++ ':' :: (ss ++ '.' :: fs)))))) =
        [ys, mos, days, hs, mis, ss, fs] := by
      rw [resplit_delim_split ['-', ' ', ':', '.'] ys
        (mos ++ '-' :: (days ++ ' ' :: (hs ++ ':' :: (mis ++ ':' :: (ss ++ '.' :: fs))))) '-'
        (by decide) (digits_not_delims ys h1.2 _ dtDelims_sub)]
      rw [resplit_delim_split ['-', ' ', ':', '.'] mos
        (days ++ ' ' :: (hs ++ ':' :: (mis ++ ':' :: (ss ++ '.' :: fs)))) '-'
        (by decide) (digits_not_delims mos h2.2 _ dtDelims_sub)]
      rw [resplit_delim_split ['-', ' ', ':', '.'] days
        (hs ++ ':' :: (mis ++ ':' :: (ss ++ '.' :: fs))) ' '
        (by decide) (digits_not_delims days h3.2 _ dtDelims_sub)]
      rw [resplit_delim_split ['-', ' ', ':', '.'] hs
        (mis ++ ':' :: (ss ++ '.' :: fs)) ':'
        (by decide) (digits_not_delims hs h4.2 _ dtDelims_sub)]
      rw [resplit_delim_split ['-', ' ', ':', '.'] mis (ss ++ '.' :: fs) ':'
        (by decide) (digits_not_delims mis h5.2 _ dtDelims_sub)]
      rw [resplit_delim_split ['-', ' ', ':', '.'] ss fs '.'
        (by decide) (digits_not_delims ss h6.2 _ dtDelims_sub)]
      rw [resplit_no_delim ['-', ' ', ':', '.'] fs
        (digits_not_delims fs h7.2 _ dtDelims_sub)]
    unfold DBAPIDateTime.to_object
    rw [if_neg (by simp [tagEq, hnd]), if_neg (by simp [tagEq, hnt]),
      if_pos (show Json.tagMem (Json.str t) datetimeTags = true from hcont)]
    dsimp only [data_mk]
    rw [e1]
    simp only [List.length_cons, List.length_nil, Nat.sub_self, List.replicate,
      List.append_nil]
    simp only [mapInt, parsePyNat_digits ys h1, parsePyNat_digits mos h2,
      parsePyNat_digits days h3, parsePyNat_digits hs h4, parsePyNat_digits mis h5,
      parsePyNat_digits ss h6, parsePyNat_digits fs h7]
    rw [parse_ljust_pyStrNat]

/-- C7 witness: the spec round-trip examples, via the amended theorem. -/
theorem claim_C7_datetime_parsing_witness :
    DBAPIDateTime.to_object (Json.str "2020-01-05") (Json.str "date") =
      .ok (.date 2020 1 5) ∧
    DBAPIDateTime.to_object (Json.str "13:05:07.25") (Json.str "time") =
      .ok (.time 13 5 7 250000) ∧
    DBAPIDateTime.to_object (Json.str "13:05:07") (Json.str "time") =
      .ok (.time 13 5 7 0) ∧
    DBAPIDateTime.to_object (Json.str "2020-01-05 13:05:07.25") (Json.str "datetime") =
      .ok (.datetime 2020 1 5 13 5 7 250000) := by
  refine ⟨?_, ?_, ?_, ?_⟩
  · exact (claim_C7_datetime_parsing.1 ['2', '0', '2', '0'] ['0', '1'] ['0', '5']
      (by decide) (by decide) (by decide)).trans (by rfl)
  · exact (claim_C7_datetime_parsing.2.1 ['1', '3'] ['0', '5'] ['0', '7'] ['2', '5']
      (by decide) (by decide) (by decide) (by decide)).trans (by rfl)
  · exact (claim_C7_datetime_parsing.2.2.1 ['1', '3'] ['0', '5'] ['0', '7']
      (by decide) (by decide) (by decide)).trans (by rfl)
  · exact (claim_C7_datetime_parsing.2.2.2 "datetime" ['2', '0', '2', '0'] ['0', '1']
      ['0', '5'] ['1', '3'] ['0', '5'] ['0', '7'] ['2', '5']
      (by decide) (by decide) (by decide) (by decide) (by decide) (by decide)
      (by decide) (by decide) (by decide) (by decide)).trans (by rfl)

/-- C7 counterexample: for the fractional text `05`, padding the component
itself would give 50000 microseconds, but the code first converts to the
integer 5 (dropping the leading zero) and pads its rendering, yielding
500000 microseconds. -/
theorem claim_C7_counterexample :
    DBAPIDateTime.to_object (Json.str "13:05:07.05") (Json.str "time") =
      .ok (.time 13 5 7 500000) ∧
    DBAPIDateTime.to_object (Json.str "13:05:07.05") (Json.str "time") ≠
      .ok (.time 13 5 7 50000) := by
  refine ⟨rfl, ?_⟩
  intro h
  rw [show DBAPIDateTime.to_object (Json.str "13:05:07.05") (Json.str "time") =
    .ok (.time 13 5 7 500000) from rfl] at h
  injection h with h2
  injection h2 with e1 e2 e3 e4
  exact absurd e4 (by decide)
